import Mathlib

/-!
Verification of `src/gpu_check.py` (function `check_gpu_availability`).

The Python function probes for GPUs through a fixed chain of strategies:
1. run `nvidia-smi -L` and keep output lines that, once stripped, start with
   the string "GPU";
2. import the optional `torch` library and, when `torch.cuda.is_available()`,
   report the CUDA device names;
3. a platform-specific command: `system_profiler SPDisplaysDataType` on
   darwin (lines containing "Chipset Model:"), `lspci` on linux (lines
   containing "VGA" or "Display");
4. otherwise return the zero-value result.

The shallow embedding below models the outside world (subprocess outcomes,
the optional library, the platform string) as an explicit environment
record, and models the Python exception flow with an `Except` monad:
`subprocess.check_output` raises `FileNotFoundError` when the command is
missing and `subprocess.CalledProcessError` when it exits non-zero, and the
`try`/`except` blocks of the source catch exactly those two exception
classes.
-/

/-- Python string helper: the ASCII whitespace characters stripped by
`str.strip()`. -/
def pyIsSpace (c : Char) : Bool :=
  c = ' ' || c = '\t' || c = '\n' || c = '\r' || c = '\x0b' || c = '\x0c'

/-- Python `str.strip()`: drop whitespace from both ends. -/
def pyStrip (s : String) : String :=
  ⟨((s.data.dropWhile pyIsSpace).reverse.dropWhile pyIsSpace).reverse⟩

/-- Python `str.lower()`: map every character to lowercase. -/
def pyLower (s : String) : String :=
  ⟨s.data.map Char.toLower⟩

/-- Python `str.startswith(pre)`. -/
def pyStartsWith (s pre : String) : Bool :=
  pre.data.isPrefixOf s.data

/-- Split a character list at every newline character, keeping empty chunks,
exactly as Python `str.split('\n')` does. -/
def splitLinesAux : List Char → List (List Char)
  | [] => [[]]
  | c :: rest =>
    match splitLinesAux rest with
    | [] => [[]]
    | l :: ls => if c = '\n' then [] :: l :: ls else (c :: l) :: ls

/-- Python `output.split('\n')`. -/
def pySplitLines (s : String) : List String :=
  (splitLinesAux s.data).map (fun cs => ⟨cs⟩)

/-- Contiguous-substring test on character lists, the model of Python
`pat in s`. -/
def listIsInfixOf (pat : List Char) : List Char → Bool
  | [] => pat.isEmpty
  | c :: rest => pat.isPrefixOf (c :: rest) || listIsInfixOf pat rest

/-- Python `pat in s` for strings (substring containment). -/
def pyIn (pat s : String) : Bool :=
  listIsInfixOf pat.data s.data

/-- The dictionary returned by `check_gpu_availability`. -/
structure ProbeResult where
  has_gpu : Bool
  gpu_count : Nat
  gpu_info : List String
  method : Option String
  deriving DecidableEq, Repr

/-- The initial value of `result` in the source, also the value returned
when every strategy fails. -/
def defaultResult : ProbeResult :=
  { has_gpu := false, gpu_count := 0, gpu_info := [], method := none }

/-- Outcome of invoking one external command through
`subprocess.check_output`. -/
inductive CmdResult where
  | notFound
  | nonZeroExit
  | ok (output : String)
  deriving DecidableEq, Repr

/-- The exceptions the source anticipates: `FileNotFoundError` when the
command is missing and `subprocess.CalledProcessError` when it exits
non-zero. -/
inductive PyExc where
  | calledProcessError
  | fileNotFoundError
  deriving DecidableEq, Repr

/-- Model of `subprocess.check_output(cmd, stderr=DEVNULL,
universal_newlines=True)`: returns the captured stdout or raises. -/
def check_output (r : CmdResult) : Except PyExc String :=
  match r with
  | CmdResult.notFound => Except.error PyExc.fileNotFoundError
  | CmdResult.nonZeroExit => Except.error PyExc.calledProcessError
  | CmdResult.ok output => Except.ok output

/-- State of the optional `torch` library when it is importable:
whether `torch.cuda.is_available()` returns true, and the device names
`torch.cuda.get_device_name(i)` for `i < torch.cuda.device_count()`
(so `device_count` is the length of `devices`). -/
structure TorchState where
  cuda_available : Bool
  devices : List String
  deriving DecidableEq, Repr

/-- The external world as `check_gpu_availability` observes it: the outcome
of each of the three commands it may spawn, the optional `torch` library
(`none` models `ImportError`), and the string `platform.system()` returns. -/
structure Env where
  nvidiaSmi : CmdResult
  torch : Option TorchState
  platformSystem : String
  systemProfiler : CmdResult
  lspci : CmdResult
  deriving DecidableEq, Repr

/-- Lines kept by strategy 1 from the `nvidia-smi -L` output:
`[line.strip() for line in output.split('\n') if line.strip().startswith('GPU')]`. -/
def nvidiaGpuLines (output : String) : List String :=
  ((pySplitLines output).map pyStrip).filter (fun l => pyStartsWith l "GPU")

/-- Lines kept by the darwin branch of strategy 3: each line of the
`system_profiler` output containing "Chipset Model:", stripped. -/
def profilerGpuLines (output : String) : List String :=
  ((pySplitLines output).filter (fun l => pyIn "Chipset Model:" l)).map pyStrip

/-- Lines kept by the linux branch of strategy 3:
`[line for line in output.split('\n') if 'VGA' in line or 'Display' in line]`. -/
def lspciGpuLines (output : String) : List String :=
  (pySplitLines output).filter (fun l => pyIn "VGA" l || pyIn "Display" l)

/-- Strategy 3 of the source: `system = platform.system().lower()`, then the
darwin branch (with its `'Chipset Model:' in output` guard), the linux
branch, or nothing; falling through reaches the final `return result` with
`result` still at its zero value. -/
def checkSystem (env : Env) : Except PyExc ProbeResult :=
  let system := pyLower env.platformSystem
  if system = "darwin" then
    match check_output env.systemProfiler with
    | Except.ok output =>
        if pyIn "Chipset Model:" output then
          Except.ok
            { has_gpu := decide (0 < (profilerGpuLines output).length)
              gpu_count := (profilerGpuLines output).length
              gpu_info := profilerGpuLines output
              method := some "system_profiler" }
        else Except.ok defaultResult
    | Except.error _ => Except.ok defaultResult
  else if system = "linux" then
    match check_output env.lspci with
    | Except.ok output =>
        Except.ok
          { has_gpu := decide (0 < (lspciGpuLines output).length)
            gpu_count := (lspciGpuLines output).length
            gpu_info := lspciGpuLines output
            method := some "lspci" }
    | Except.error _ => Except.ok defaultResult
  else Except.ok defaultResult

/-- Strategy 2 of the source: `import torch` (an `ImportError` is caught and
falls through), and when `torch.cuda.is_available()` report the device
names; when the library is importable but reports no accelerator the `if`
body is skipped and control falls through to strategy 3. -/
def checkTorch (env : Env) : Except PyExc ProbeResult :=
  match env.torch with
  | none => checkSystem env
  | some t =>
      if t.cuda_available then
        Except.ok
          { has_gpu := true
            gpu_count := t.devices.length
            gpu_info := t.devices
            method := some "pytorch" }
      else checkSystem env

/-- The embedding of `check_gpu_availability`: strategy 1 (`nvidia-smi -L`),
whose `except (CalledProcessError, FileNotFoundError)` clause catches both
possible exceptions and falls through to strategy 2. -/
def check_gpu_availability (env : Env) : Except PyExc ProbeResult :=
  match check_output env.nvidiaSmi with
  | Except.ok output =>
      Except.ok
        { has_gpu := decide (0 < (nvidiaGpuLines output).length)
          gpu_count := (nvidiaGpuLines output).length
          gpu_info := nvidiaGpuLines output
          method := some "nvidia-smi" }
  | Except.error _ => checkTorch env

/-- Well-formedness of the modelled `torch` library, a guarantee of the real
library rather than of this repository: `torch.cuda.is_available()` reports
true exactly when the CUDA device count is positive. -/
def TorchWF (torch : Option TorchState) : Prop :=
  ∀ t, torch = some t → t.cuda_available = true → 0 < t.devices.length

/-! Helper lemmas about the string primitives. -/

/-- The substring test agrees with the `List.IsInfix` relation. -/
theorem listIsInfixOf_iff (pat l : List Char) :
    listIsInfixOf pat l = true ↔ pat <:+: l := by
  induction l with
  | nil => simp [listIsInfixOf, List.isEmpty_iff, List.infix_nil]
  | cons c rest ih =>
      simp [listIsInfixOf, List.isPrefixOf_iff_prefix, ih, List.infix_cons_iff]

/-- The model of Python `pat in s` agrees with `List.IsInfix` on the
character lists. -/
theorem pyIn_iff (pat s : String) : pyIn pat s = true ↔ pat.data <:+: s.data :=
  listIsInfixOf_iff _ _

/-- The model of Python `s.startswith(pre)` agrees with `List.IsPrefix`. -/
theorem pyStartsWith_iff (s pre : String) :
    pyStartsWith s pre = true ↔ pre.data <+: s.data :=
  List.isPrefixOf_iff_prefix

/-- Rebuild a character list from its newline-separated chunks. -/
def joinLines : List (List Char) → List Char
  | [] => []
  | [l] => l
  | l :: l2 :: ls => l ++ '\n' :: joinLines (l2 :: ls)

/-- Splitting always yields at least one chunk. -/
theorem splitLinesAux_ne_nil (cs : List Char) : splitLinesAux cs ≠ [] := by
  cases cs with
  | nil => simp [splitLinesAux]
  | cons c rest =>
      simp only [splitLinesAux]
      cases splitLinesAux rest with
      | nil => simp
      | cons l ls => by_cases hc : c = '\n' <;> simp [hc]

/-- Joining the chunks of a split recovers the original list. -/
theorem joinLines_splitLinesAux (cs : List Char) :
    joinLines (splitLinesAux cs) = cs := by
  induction cs with
  | nil => rfl
  | cons c rest ih =>
      cases h : splitLinesAux rest with
      | nil => exact absurd h (splitLinesAux_ne_nil rest)
      | cons l ls =>
          rw [h] at ih
          by_cases hc : c = '\n'
          · subst hc
            simp only [splitLinesAux, h, if_pos rfl]
            simp [joinLines, ih]
          · simp only [splitLinesAux, h, if_neg hc]
            cases ls with
            | nil => simp [joinLines] at ih ⊢; rw [ih]
            | cons l2 ls2 => simp [joinLines] at ih ⊢; rw [ih]

/-- Every member of a chunk list is a contiguous part of the join. -/
theorem infix_of_mem_joinLines {l : List Char} {ls : List (List Char)}
    (h : l ∈ ls) : l <:+: joinLines ls := by
  induction ls with
  | nil => cases h
  | cons m ms ih =>
      cases ms with
      | nil =>
          rw [List.mem_singleton] at h
          subst h
          exact List.infix_refl l
      | cons m2 ms2 =>
          rcases List.mem_cons.mp h with rfl | h2
          · exact (List.prefix_append l _).isInfix
          · obtain ⟨s, t, hst⟩ := ih h2
            exact ⟨m ++ '\n' :: s, t, by simp [joinLines, ← hst]⟩

/-- Every line the split produces is a contiguous part of the input. -/
theorem infix_of_mem_splitLinesAux {l cs : List Char}
    (h : l ∈ splitLinesAux cs) : l <:+: cs := by
  have h2 := infix_of_mem_joinLines h
  rwa [joinLines_splitLinesAux] at h2

/-- A separator-free pattern that is a prefix of `as ++ sep :: bs` is
already a prefix of `as`. -/
theorem prefix_drop_sep {sep : Char} :
    ∀ {pat as bs : List Char}, sep ∉ pat → pat <+: as ++ sep :: bs →
      pat <+: as := by
  intro pat
  induction pat with
  | nil => intro as bs _ _; exact List.nil_prefix
  | cons p ps ih =>
      intro as bs hsep hpre
      cases as with
      | nil =>
          rw [List.nil_append, List.cons_prefix_cons] at hpre
          exact absurd (hpre.1 ▸ List.mem_cons_self p ps) hsep
      | cons a as2 =>
          rw [List.cons_append, List.cons_prefix_cons] at hpre
          obtain ⟨rfl, h2⟩ := hpre
          have hsep2 : sep ∉ ps := fun hm => hsep (List.mem_cons_of_mem _ hm)
          exact List.cons_prefix_cons.mpr ⟨rfl, ih hsep2 h2⟩

/-- A separator-free pattern inside `as ++ sep :: bs` lies wholly inside
`as` or wholly inside `bs`. -/
theorem infix_split_at_sep {sep : Char} {pat : List Char} (hsep : sep ∉ pat) :
    ∀ {as bs : List Char}, pat <:+: as ++ sep :: bs →
      pat <:+: as ∨ pat <:+: bs := by
  intro as
  induction as with
  | nil =>
      intro bs h
      rw [List.nil_append, List.infix_cons_iff] at h
      rcases h with h | h
      · cases pat with
        | nil => exact Or.inl List.nil_infix
        | cons p ps =>
            rw [List.cons_prefix_cons] at h
            exact absurd (h.1 ▸ List.mem_cons_self p ps) hsep
      · exact Or.inr h
  | cons a as2 ih =>
      intro bs h
      rw [List.cons_append, List.infix_cons_iff] at h
      rcases h with h | h
      · have h2 : pat <+: a :: as2 :=
          prefix_drop_sep hsep (by rwa [List.cons_append])
        exact Or.inl h2.isInfix
      · rcases ih h with h2 | h2
        · exact Or.inl (List.infix_cons h2)
        · exact Or.inr h2

/-- A newline-free pattern inside a join of chunks lies inside one chunk. -/
theorem infix_chunk_of_infix_joinLines {pat : List Char}
    (hsep : '\n' ∉ pat) :
    ∀ {ls : List (List Char)}, ls ≠ [] → pat <:+: joinLines ls →
      ∃ l ∈ ls, pat <:+: l := by
  intro ls
  induction ls with
  | nil => intro h _; exact absurd rfl h
  | cons m ms ih =>
      intro _ h
      cases ms with
      | nil => exact ⟨m, List.mem_singleton.mpr rfl, by simpa [joinLines] using h⟩
      | cons m2 ms2 =>
          rw [show joinLines (m :: m2 :: ms2) = m ++ '\n' :: joinLines (m2 :: ms2) from rfl] at h
          rcases infix_split_at_sep hsep h with h2 | h2
          · exact ⟨m, List.mem_cons_self m _, h2⟩
          · obtain ⟨l, hl, hli⟩ := ih (by simp) h2
            exact ⟨l, List.mem_cons_of_mem _ hl, hli⟩

/-- If some line of the split output contains the pattern, the whole output
contains it. -/
theorem pyIn_out_of_line {pat out l : String} (hl : l ∈ pySplitLines out)
    (h : pyIn pat l = true) : pyIn pat out = true := by
  rw [pyIn_iff] at h ⊢
  obtain ⟨cs, hcs, rfl⟩ := List.mem_map.mp hl
  exact h.trans (infix_of_mem_splitLinesAux hcs)

/-- If the output contains a newline-free pattern, some line of the split
output contains it. -/
theorem line_of_pyIn_out {pat out : String} (hsep : '\n' ∉ pat.data)
    (h : pyIn pat out = true) : ∃ l ∈ pySplitLines out, pyIn pat l = true := by
  rw [pyIn_iff, ← joinLines_splitLinesAux out.data] at h
  obtain ⟨cs, hcs, hi⟩ :=
    infix_chunk_of_infix_joinLines hsep (splitLinesAux_ne_nil _) h
  exact ⟨⟨cs⟩, List.mem_map_of_mem _ hcs, (pyIn_iff _ _).mpr hi⟩

/-- Filtering a list in which exactly two marked elements satisfy the
predicate yields those two elements in order. -/
theorem filter_pair {α : Type} (p : α → Bool) (pre mid post : List α)
    (a b : α) (ha : p a = true) (hb : p b = true)
    (hpre : ∀ x ∈ pre, p x = false) (hmid : ∀ x ∈ mid, p x = false)
    (hpost : ∀ x ∈ post, p x = false) :
    List.filter p (pre ++ a :: (mid ++ b :: post)) = [a, b] := by
  have h1 : List.filter p pre = [] :=
    List.filter_eq_nil_iff.mpr (fun x hx => by simp [hpre x hx])
  have h2 : List.filter p mid = [] :=
    List.filter_eq_nil_iff.mpr (fun x hx => by simp [hmid x hx])
  have h3 : List.filter p post = [] :=
    List.filter_eq_nil_iff.mpr (fun x hx => by simp [hpost x hx])
  simp [List.filter_append, List.filter_cons, h1, h2, h3, ha, hb]

/-- Filtering a list in which exactly one marked element satisfies the
predicate yields that element alone. -/
theorem filter_single {α : Type} (p : α → Bool) (pre post : List α)
    (a : α) (ha : p a = true)
    (hpre : ∀ x ∈ pre, p x = false) (hpost : ∀ x ∈ post, p x = false) :
    List.filter p (pre ++ a :: post) = [a] := by
  have h1 : List.filter p pre = [] :=
    List.filter_eq_nil_iff.mpr (fun x hx => by simp [hpre x hx])
  have h3 : List.filter p post = [] :=
    List.filter_eq_nil_iff.mpr (fun x hx => by simp [hpost x hx])
  simp [List.filter_append, List.filter_cons, h1, h3, ha]

/-- Weaken a startswith fact to a shorter pattern. -/
theorem pyStartsWith_weaken {l p q : String} (hpq : p.data <+: q.data)
    (h : pyStartsWith l q = true) : pyStartsWith l p = true := by
  rw [pyStartsWith_iff] at h ⊢
  exact hpq.trans h

/-- Weaken a containment fact to a pattern contained in the original one. -/
theorem pyIn_weaken {l p q : String} (hpq : p.data <:+: q.data)
    (h : pyIn q l = true) : pyIn p l = true := by
  rw [pyIn_iff] at h ⊢
  exact hpq.trans h

/-- Strategy 3 always returns a result; the result satisfies the count and
method invariants. -/
theorem checkSystem_ok (env : Env) :
    ∃ r, checkSystem env = Except.ok r ∧
      r.gpu_count = r.gpu_info.length ∧
      (r.has_gpu = true ↔ 0 < r.gpu_count) ∧
      (r.method = none ∨ r.method = some "system_profiler" ∨
        r.method = some "lspci") := by
  by_cases hd : pyLower env.platformSystem = "darwin"
  · cases hsp : env.systemProfiler with
    | notFound =>
        have heq : checkSystem env = Except.ok defaultResult := by
          simp [checkSystem, hd, hsp, check_output]
        exact ⟨defaultResult, heq, by simp [defaultResult]⟩
    | nonZeroExit =>
        have heq : checkSystem env = Except.ok defaultResult := by
          simp [checkSystem, hd, hsp, check_output]
        exact ⟨defaultResult, heq, by simp [defaultResult]⟩
    | ok out =>
        by_cases hg : pyIn "Chipset Model:" out
        · have heq : checkSystem env = Except.ok
              { has_gpu := decide (0 < (profilerGpuLines out).length)
                gpu_count := (profilerGpuLines out).length
                gpu_info := profilerGpuLines out
                method := some "system_profiler" } := by
            simp [checkSystem, hd, hsp, check_output, hg]
          exact ⟨_, heq, rfl, by simp, Or.inr (Or.inl rfl)⟩
        · have heq : checkSystem env = Except.ok defaultResult := by
            simp [checkSystem, hd, hsp, check_output, hg]
          exact ⟨defaultResult, heq, by simp [defaultResult]⟩
  · by_cases hl : pyLower env.platformSystem = "linux"
    · cases hls : env.lspci with
      | notFound =>
          have heq : checkSystem env = Except.ok defaultResult := by
            simp [checkSystem, hd, hl, hls, check_output]
          exact ⟨defaultResult, heq, by simp [defaultResult]⟩
      | nonZeroExit =>
          have heq : checkSystem env = Except.ok defaultResult := by
            simp [checkSystem, hd, hl, hls, check_output]
          exact ⟨defaultResult, heq, by simp [defaultResult]⟩
      | ok out =>
          have heq : checkSystem env = Except.ok
              { has_gpu := decide (0 < (lspciGpuLines out).length)
                gpu_count := (lspciGpuLines out).length
                gpu_info := lspciGpuLines out
                method := some "lspci" } := by
            simp [checkSystem, hd, hl, hls, check_output]
          exact ⟨_, heq, rfl, by simp, Or.inr (Or.inr rfl)⟩
    · have heq : checkSystem env = Except.ok defaultResult := by
        simp [checkSystem, hd, hl]
      exact ⟨defaultResult, heq, by simp [defaultResult]⟩

/-- Strategies 2 and 3 always return a result with the structural
invariants; a "pytorch" result only arises from an importable library
reporting an available accelerator. -/
theorem checkTorch_ok (env : Env) :
    ∃ r, checkTorch env = Except.ok r ∧
      r.gpu_count = r.gpu_info.length ∧
      (r.method = some "pytorch" ∨ (r.has_gpu = true ↔ 0 < r.gpu_count)) ∧
      (r.method = some "pytorch" → r.has_gpu = true ∧
        ∃ t, env.torch = some t ∧ t.cuda_available = true ∧
          r.gpu_count = t.devices.length) ∧
      (r.method = none ∨ r.method = some "pytorch" ∨
        r.method = some "system_profiler" ∨ r.method = some "lspci") := by
  cases ht : env.torch with
  | none =>
      have heq : checkTorch env = checkSystem env := by
        simp [checkTorch, ht]
      obtain ⟨r, hr, h1, h2, h3⟩ := checkSystem_ok env
      rw [← heq] at hr
      refine ⟨r, hr, h1, Or.inr h2, ?_, ?_⟩
      · intro hm
        rcases h3 with h | h | h <;> rw [h] at hm <;> simp at hm
      · rcases h3 with h | h | h
        · exact Or.inl h
        · exact Or.inr (Or.inr (Or.inl h))
        · exact Or.inr (Or.inr (Or.inr h))
  | some t =>
      by_cases hc : t.cuda_available = true
      · have heq : checkTorch env = Except.ok
            { has_gpu := true, gpu_count := t.devices.length
              gpu_info := t.devices, method := some "pytorch" } := by
          simp [checkTorch, ht, hc]
        refine ⟨_, heq, rfl, Or.inl rfl, ?_, Or.inr (Or.inl rfl)⟩
        intro _
        exact ⟨rfl, t, rfl, hc, rfl⟩
      · have heq : checkTorch env = checkSystem env := by
          simp [checkTorch, ht, hc]
        obtain ⟨r, hr, h1, h2, h3⟩ := checkSystem_ok env
        rw [← heq] at hr
        refine ⟨r, hr, h1, Or.inr h2, ?_, ?_⟩
        · intro hm
          rcases h3 with h | h | h <;> rw [h] at hm <;> simp at hm
        · rcases h3 with h | h | h
          · exact Or.inl h
          · exact Or.inr (Or.inr (Or.inl h))
          · exact Or.inr (Or.inr (Or.inr h))

/-- Full structural characterization of the probe: it always returns a
result (no uncaught exception), the count equals the length of the info
list, the method is one of the five possible values, the has-gpu flag
matches the count except possibly on a "pytorch" result, and a "pytorch"
result records the device count of an available accelerator. -/
theorem check_ok_strong (env : Env) :
    ∃ r, check_gpu_availability env = Except.ok r ∧
      r.gpu_count = r.gpu_info.length ∧
      (r.method = some "pytorch" ∨ (r.has_gpu = true ↔ 0 < r.gpu_count)) ∧
      (r.method = some "pytorch" → r.has_gpu = true ∧
        ∃ t, env.torch = some t ∧ t.cuda_available = true ∧
          r.gpu_count = t.devices.length) ∧
      (r.method = none ∨ r.method = some "nvidia-smi" ∨
        r.method = some "pytorch" ∨ r.method = some "system_profiler" ∨
        r.method = some "lspci") := by
  cases hnv : env.nvidiaSmi with
  | ok out =>
      have heq : check_gpu_availability env = Except.ok
          { has_gpu := decide (0 < (nvidiaGpuLines out).length)
            gpu_count := (nvidiaGpuLines out).length
            gpu_info := nvidiaGpuLines out
            method := some "nvidia-smi" } := by
        simp [check_gpu_availability, check_output, hnv]
      refine ⟨_, heq, rfl, Or.inr (by simp), ?_, Or.inr (Or.inl rfl)⟩
      intro hm
      simp at hm
  | notFound =>
      have heq : check_gpu_availability env = checkTorch env := by
        simp [check_gpu_availability, check_output, hnv]
      obtain ⟨r, hr, h1, h2, h3, h4⟩ := checkTorch_ok env
      rw [← heq] at hr
      refine ⟨r, hr, h1, h2, h3, ?_⟩
      rcases h4 with h | h | h | h
      · exact Or.inl h
      · exact Or.inr (Or.inr (Or.inl h))
      · exact Or.inr (Or.inr (Or.inr (Or.inl h)))
      · exact Or.inr (Or.inr (Or.inr (Or.inr h)))
  | nonZeroExit =>
      have heq : check_gpu_availability env = checkTorch env := by
        simp [check_gpu_availability, check_output, hnv]
      obtain ⟨r, hr, h1, h2, h3, h4⟩ := checkTorch_ok env
      rw [← heq] at hr
      refine ⟨r, hr, h1, h2, h3, ?_⟩
      rcases h4 with h | h | h | h
      · exact Or.inl h
      · exact Or.inr (Or.inr (Or.inl h))
      · exact Or.inr (Or.inr (Or.inr (Or.inl h)))
      · exact Or.inr (Or.inr (Or.inr (Or.inr h)))

/-- C1: for every platform and every combination of strategy availability
and external-command outputs, the result returned by
`check_gpu_availability` satisfies
`has_gpu == (gpu_count > 0) == (len(gpu_info) > 0)`. The hypothesis
`TorchWF` records the guarantee of the real ML library that
`torch.cuda.is_available()` is true exactly when the device count is
positive; everything else is fully general. -/
theorem probe_invariant (env : Env) (r : ProbeResult)
    (hwf : TorchWF env.torch)
    (h : check_gpu_availability env = Except.ok r) :
    (r.has_gpu = true ↔ 0 < r.gpu_count) ∧
      (0 < r.gpu_count ↔ 0 < r.gpu_info.length) := by
  obtain ⟨r2, hr2, hlen, hflag, hpy, _⟩ := check_ok_strong env
  have hrr : r = r2 := by rw [h] at hr2; exact Except.ok.inj hr2
  subst hrr
  rcases hflag with hm | hiff
  · obtain ⟨hgpu, t, ht, hc, hcount⟩ := hpy hm
    have hpos : 0 < r.gpu_count := by rw [hcount]; exact hwf t ht hc
    exact ⟨⟨fun _ => hpos, fun _ => hgpu⟩, by rw [hlen]⟩
  · exact ⟨hiff, by rw [hlen]⟩

/-- Witness for C1 at a concrete environment where every strategy fails. -/
theorem probe_invariant_witness :
    TorchWF (Env.torch
      { nvidiaSmi := CmdResult.notFound, torch := none
        platformSystem := "Windows", systemProfiler := CmdResult.notFound
        lspci := CmdResult.notFound }) ∧
    check_gpu_availability
      { nvidiaSmi := CmdResult.notFound, torch := none
        platformSystem := "Windows", systemProfiler := CmdResult.notFound
        lspci := CmdResult.notFound } = Except.ok defaultResult ∧
    ((defaultResult.has_gpu = true ↔ 0 < defaultResult.gpu_count) ∧
      (0 < defaultResult.gpu_count ↔ 0 < defaultResult.gpu_info.length)) := by
  refine ⟨fun t h => (nomatch h), rfl, ?_⟩
  exact probe_invariant
    { nvidiaSmi := CmdResult.notFound, torch := none
      platformSystem := "Windows", systemProfiler := CmdResult.notFound
      lspci := CmdResult.notFound }
    defaultResult (fun t h => nomatch h) rfl

/-- C2: the probe never propagates an exception: for every environment
(in particular every combination of command-missing and command-failing
outcomes and an absent ML library) it returns a complete result through
the normal path; every exception the modelled calls can raise is caught
by the corresponding except clause. -/
theorem probe_never_fails (env : Env) :
    ∃ r, check_gpu_availability env = Except.ok r := by
  obtain ⟨r, hr, _⟩ := check_ok_strong env
  exact ⟨r, hr⟩

/-- C10: every result has `gpu_count` equal to the length of `gpu_info`,
and its method field is one of exactly the five possible values. -/
theorem probe_count_and_method (env : Env) (r : ProbeResult)
    (h : check_gpu_availability env = Except.ok r) :
    r.gpu_count = r.gpu_info.length ∧
      r.method ∈ [none, some "nvidia-smi", some "pytorch",
        some "system_profiler", some "lspci"] := by
  obtain ⟨r2, hr2, hlen, _, _, henum⟩ := check_ok_strong env
  have hrr : r = r2 := by rw [h] at hr2; exact Except.ok.inj hr2
  subst hrr
  refine ⟨hlen, ?_⟩
  rcases henum with h2 | h2 | h2 | h2 | h2 <;> simp [h2]

/-- Witness for C10 at a concrete environment. -/
theorem probe_count_and_method_witness :
    check_gpu_availability
      { nvidiaSmi := CmdResult.notFound, torch := none
        platformSystem := "Windows", systemProfiler := CmdResult.notFound
        lspci := CmdResult.notFound } = Except.ok defaultResult ∧
    (defaultResult.gpu_count = defaultResult.gpu_info.length ∧
      defaultResult.method ∈ [none, some "nvidia-smi", some "pytorch",
        some "system_profiler", some "lspci"]) :=
  ⟨rfl,
    probe_count_and_method
      { nvidiaSmi := CmdResult.notFound, torch := none
        platformSystem := "Windows", systemProfiler := CmdResult.notFound
        lspci := CmdResult.notFound }
      defaultResult rfl⟩

/-- C5: the strategy order is fixed: whenever both the NVIDIA command and
the ML-library query would succeed, the probe returns the NVIDIA result
with method "nvidia-smi"; strategy 1 takes priority and no later strategy
is attempted. -/
theorem nvidia_priority (env : Env) (out : String) (t : TorchState)
    (hnv : env.nvidiaSmi = CmdResult.ok out)
    (_ht : env.torch = some t) (_hcuda : t.cuda_available = true) :
    check_gpu_availability env = Except.ok
      { has_gpu := decide (0 < (nvidiaGpuLines out).length)
        gpu_count := (nvidiaGpuLines out).length
        gpu_info := nvidiaGpuLines out
        method := some "nvidia-smi" } := by
  simp [check_gpu_availability, check_output, hnv]

/-- Witness for C5: nvidia-smi reports one GPU, torch reports one device;
the nvidia-smi result wins. -/
theorem nvidia_priority_witness :
    Env.nvidiaSmi
      { nvidiaSmi := CmdResult.ok "GPU 0: NVIDIA A100", torch := some { cuda_available := true, devices := ["A100"] }
        platformSystem := "Linux", systemProfiler := CmdResult.notFound
        lspci := CmdResult.notFound } = CmdResult.ok "GPU 0: NVIDIA A100" ∧
    check_gpu_availability
      { nvidiaSmi := CmdResult.ok "GPU 0: NVIDIA A100", torch := some { cuda_available := true, devices := ["A100"] }
        platformSystem := "Linux", systemProfiler := CmdResult.notFound
        lspci := CmdResult.notFound } = Except.ok
      { has_gpu := decide (0 < (nvidiaGpuLines "GPU 0: NVIDIA A100").length)
        gpu_count := (nvidiaGpuLines "GPU 0: NVIDIA A100").length
        gpu_info := nvidiaGpuLines "GPU 0: NVIDIA A100"
        method := some "nvidia-smi" } :=
  ⟨rfl,
    nvidia_priority
      { nvidiaSmi := CmdResult.ok "GPU 0: NVIDIA A100", torch := some { cuda_available := true, devices := ["A100"] }
        platformSystem := "Linux", systemProfiler := CmdResult.notFound
        lspci := CmdResult.notFound }
      "GPU 0: NVIDIA A100" { cuda_available := true, devices := ["A100"] }
      rfl rfl rfl⟩

/-- C4: whenever the NVIDIA command succeeds and its output, after
stripping each line, contains exactly the lines starting with "GPU 0:" and
"GPU 1:" among otherwise non-matching lines (lines whose stripped form does
not start with "GPU"), the result is has_gpu true, gpu_count 2, method
"nvidia-smi", and gpu_info is exactly those two stripped lines in their
original output order. -/
theorem nvidia_two_lines (env : Env) (out : String)
    (pre mid post : List String) (a b : String)
    (hnv : env.nvidiaSmi = CmdResult.ok out)
    (hsplit : (pySplitLines out).map pyStrip = pre ++ a :: (mid ++ b :: post))
    (ha : pyStartsWith a "GPU 0:" = true)
    (hb : pyStartsWith b "GPU 1:" = true)
    (hpre : ∀ l ∈ pre, pyStartsWith l "GPU" = false)
    (hmid : ∀ l ∈ mid, pyStartsWith l "GPU" = false)
    (hpost : ∀ l ∈ post, pyStartsWith l "GPU" = false) :
    check_gpu_availability env = Except.ok
      { has_gpu := true, gpu_count := 2, gpu_info := [a, b]
        method := some "nvidia-smi" } := by
  have ha2 : pyStartsWith a "GPU" = true :=
    pyStartsWith_weaken ⟨" 0:".data, by decide⟩ ha
  have hb2 : pyStartsWith b "GPU" = true :=
    pyStartsWith_weaken ⟨" 1:".data, by decide⟩ hb
  have hlines : nvidiaGpuLines out = [a, b] := by
    rw [nvidiaGpuLines, hsplit]
    exact filter_pair _ pre mid post a b ha2 hb2 hpre hmid hpost
  simp [check_gpu_availability, check_output, hnv, hlines]

/-- Witness for C4: a concrete nvidia-smi output with two GPU lines and
three unrelated lines. -/
theorem nvidia_two_lines_witness :
    Env.nvidiaSmi
      { nvidiaSmi := CmdResult.ok "x\nGPU 0: A\ny\nGPU 1: B\nz"
        torch := none, platformSystem := "Linux"
        systemProfiler := CmdResult.notFound, lspci := CmdResult.notFound } =
      CmdResult.ok "x\nGPU 0: A\ny\nGPU 1: B\nz" ∧
    (pySplitLines "x\nGPU 0: A\ny\nGPU 1: B\nz").map pyStrip =
      ["x"] ++ "GPU 0: A" :: (["y"] ++ "GPU 1: B" :: ["z"]) ∧
    pyStartsWith "GPU 0: A" "GPU 0:" = true ∧
    pyStartsWith "GPU 1: B" "GPU 1:" = true ∧
    (∀ l ∈ ["x"], pyStartsWith l "GPU" = false) ∧
    (∀ l ∈ ["y"], pyStartsWith l "GPU" = false) ∧
    (∀ l ∈ ["z"], pyStartsWith l "GPU" = false) ∧
    check_gpu_availability
      { nvidiaSmi := CmdResult.ok "x\nGPU 0: A\ny\nGPU 1: B\nz"
        torch := none, platformSystem := "Linux"
        systemProfiler := CmdResult.notFound, lspci := CmdResult.notFound } =
      Except.ok
        { has_gpu := true, gpu_count := 2, gpu_info := ["GPU 0: A", "GPU 1: B"]
          method := some "nvidia-smi" } := by
  refine ⟨rfl, by decide, by decide, by decide, by decide, by decide, by decide, ?_⟩
  exact nvidia_two_lines
    { nvidiaSmi := CmdResult.ok "x\nGPU 0: A\ny\nGPU 1: B\nz"
      torch := none, platformSystem := "Linux"
      systemProfiler := CmdResult.notFound, lspci := CmdResult.notFound }
    "x\nGPU 0: A\ny\nGPU 1: B\nz" ["x"] ["y"] ["z"] "GPU 0: A" "GPU 1: B"
    rfl (by decide) (by decide) (by decide) (by decide) (by decide) (by decide)

/-- C6: whenever the NVIDIA command fails with "not found", the ML library
is absent, the platform identification facility reports "linux", and lspci
succeeds emitting exactly one line containing "VGA compatible controller"
(no other line containing "VGA" or "Display"), the result is has_gpu true,
gpu_count 1, method "lspci". -/
theorem lspci_single_vga (env : Env) (out : String)
    (pre post : List String) (l : String)
    (hnv : env.nvidiaSmi = CmdResult.notFound)
    (ht : env.torch = none)
    (hplat : pyLower env.platformSystem = "linux")
    (hls : env.lspci = CmdResult.ok out)
    (hsplit : pySplitLines out = pre ++ l :: post)
    (hl : pyIn "VGA compatible controller" l = true)
    (hpre : ∀ m ∈ pre, pyIn "VGA" m = false ∧ pyIn "Display" m = false)
    (hpost : ∀ m ∈ post, pyIn "VGA" m = false ∧ pyIn "Display" m = false) :
    check_gpu_availability env = Except.ok
      { has_gpu := true, gpu_count := 1, gpu_info := [l]
        method := some "lspci" } := by
  have hlv : pyIn "VGA" l = true :=
    pyIn_weaken ⟨[], " compatible controller".data, by decide⟩ hl
  have hlines : lspciGpuLines out = [l] := by
    rw [lspciGpuLines, hsplit]
    refine filter_single _ pre post l (by simp [hlv]) ?_ ?_
    · intro m hm
      simp [(hpre m hm).1, (hpre m hm).2]
    · intro m hm
      simp [(hpost m hm).1, (hpost m hm).2]
  have hplat2 : pyLower env.platformSystem ≠ "darwin" := by
    rw [hplat]
    decide
  simp [check_gpu_availability, check_output, hnv, checkTorch, ht,
    checkSystem, hplat2, hplat, hls, hlines]

/-- Witness for C6 at a concrete lspci output with one VGA line. -/
theorem lspci_single_vga_witness :
    pyLower "Linux" = "linux" ∧
    pySplitLines "00:00.0 Host bridge\n00:02.0 VGA compatible controller: Intel\n00:14.0 USB controller" =
      ["00:00.0 Host bridge"] ++ "00:02.0 VGA compatible controller: Intel" :: ["00:14.0 USB controller"] ∧
    pyIn "VGA compatible controller" "00:02.0 VGA compatible controller: Intel" = true ∧
    (∀ m ∈ ["00:00.0 Host bridge"], pyIn "VGA" m = false ∧ pyIn "Display" m = false) ∧
    (∀ m ∈ ["00:14.0 USB controller"], pyIn "VGA" m = false ∧ pyIn "Display" m = false) ∧
    check_gpu_availability
      { nvidiaSmi := CmdResult.notFound, torch := none
        platformSystem := "Linux", systemProfiler := CmdResult.notFound
        lspci := CmdResult.ok "00:00.0 Host bridge\n00:02.0 VGA compatible controller: Intel\n00:14.0 USB controller" } =
      Except.ok
        { has_gpu := true, gpu_count := 1
          gpu_info := ["00:02.0 VGA compatible controller: Intel"]
          method := some "lspci" } := by
  refine ⟨by decide, by decide, by decide, by decide, by decide, ?_⟩
  exact lspci_single_vga
    { nvidiaSmi := CmdResult.notFound, torch := none
      platformSystem := "Linux", systemProfiler := CmdResult.notFound
      lspci := CmdResult.ok "00:00.0 Host bridge\n00:02.0 VGA compatible controller: Intel\n00:14.0 USB controller" }
    "00:00.0 Host bridge\n00:02.0 VGA compatible controller: Intel\n00:14.0 USB controller"
    ["00:00.0 Host bridge"] ["00:14.0 USB controller"]
    "00:02.0 VGA compatible controller: Intel"
    rfl rfl (by decide) rfl (by decide) (by decide) (by decide) (by decide)

/-- C8: whenever every strategy is unavailable (NVIDIA command missing or
failing, ML library absent or reporting no accelerator, and the
platform-specific command missing or failing or the platform neither
darwin nor linux), the probe returns exactly the zero-value result. -/
theorem all_unavailable_default (env : Env)
    (h1 : env.nvidiaSmi = CmdResult.notFound ∨
      env.nvidiaSmi = CmdResult.nonZeroExit)
    (h2 : env.torch = none ∨
      ∃ t, env.torch = some t ∧ t.cuda_available = false)
    (h3 : (pyLower env.platformSystem ≠ "darwin" ∧
        pyLower env.platformSystem ≠ "linux") ∨
      (pyLower env.platformSystem = "darwin" ∧
        (env.systemProfiler = CmdResult.notFound ∨
          env.systemProfiler = CmdResult.nonZeroExit)) ∨
      (pyLower env.platformSystem = "linux" ∧
        (env.lspci = CmdResult.notFound ∨
          env.lspci = CmdResult.nonZeroExit))) :
    check_gpu_availability env = Except.ok
      { has_gpu := false, gpu_count := 0, gpu_info := [], method := none } := by
  have hsys : checkSystem env = Except.ok defaultResult := by
    rcases h3 with ⟨hd, hl⟩ | ⟨hd, hsp | hsp⟩ | ⟨hl, hls | hls⟩
    · simp [checkSystem, hd, hl]
    · simp [checkSystem, hd, hsp, check_output]
    · simp [checkSystem, hd, hsp, check_output]
    · have hd2 : pyLower env.platformSystem ≠ "darwin" := by
        rw [hl]
        decide
      simp [checkSystem, hd2, hl, hls, check_output]
    · have hd2 : pyLower env.platformSystem ≠ "darwin" := by
        rw [hl]
        decide
      simp [checkSystem, hd2, hl, hls, check_output]
  have htorch : checkTorch env = Except.ok defaultResult := by
    rcases h2 with h | ⟨t, ht, hc⟩
    · simp [checkTorch, h, hsys]
    · simp [checkTorch, ht, hc, hsys]
  rcases h1 with h | h <;>
    simp [check_gpu_availability, check_output, h, htorch, defaultResult]

/-- Witness for C8 at an environment with every strategy unavailable. -/
theorem all_unavailable_default_witness :
    (Env.nvidiaSmi
      { nvidiaSmi := CmdResult.nonZeroExit
        torch := some { cuda_available := false, devices := [] }
        platformSystem := "Linux", systemProfiler := CmdResult.notFound
        lspci := CmdResult.notFound } = CmdResult.notFound ∨
      Env.nvidiaSmi
      { nvidiaSmi := CmdResult.nonZeroExit
        torch := some { cuda_available := false, devices := [] }
        platformSystem := "Linux", systemProfiler := CmdResult.notFound
        lspci := CmdResult.notFound } = CmdResult.nonZeroExit) ∧
    check_gpu_availability
      { nvidiaSmi := CmdResult.nonZeroExit
        torch := some { cuda_available := false, devices := [] }
        platformSystem := "Linux", systemProfiler := CmdResult.notFound
        lspci := CmdResult.notFound } = Except.ok
      { has_gpu := false, gpu_count := 0, gpu_info := [], method := none } := by
  refine ⟨Or.inr rfl, ?_⟩
  exact all_unavailable_default
    { nvidiaSmi := CmdResult.nonZeroExit
      torch := some { cuda_available := false, devices := [] }
      platformSystem := "Linux", systemProfiler := CmdResult.notFound
      lspci := CmdResult.notFound }
    (Or.inr rfl)
    (Or.inr ⟨{ cuda_available := false, devices := [] }, rfl, rfl⟩)
    (Or.inr (Or.inr ⟨by decide, Or.inl rfl⟩))

/-- C7: whenever strategies 1 and 2 are unavailable, the platform is
reported as darwin, and the display-information command succeeds with
output containing exactly two lines containing "Chipset Model:", the
result has gpu_count 2 and method "system_profiler", with gpu_info holding
those two stripped lines. -/
theorem system_profiler_two_lines (env : Env) (out : String)
    (pre mid post : List String) (a b : String)
    (hnv : env.nvidiaSmi = CmdResult.notFound ∨
      env.nvidiaSmi = CmdResult.nonZeroExit)
    (ht : env.torch = none ∨
      ∃ t, env.torch = some t ∧ t.cuda_available = false)
    (hplat : pyLower env.platformSystem = "darwin")
    (hsp : env.systemProfiler = CmdResult.ok out)
    (hsplit : pySplitLines out = pre ++ a :: (mid ++ b :: post))
    (ha : pyIn "Chipset Model:" a = true)
    (hb : pyIn "Chipset Model:" b = true)
    (hpre : ∀ m ∈ pre, pyIn "Chipset Model:" m = false)
    (hmid : ∀ m ∈ mid, pyIn "Chipset Model:" m = false)
    (hpost : ∀ m ∈ post, pyIn "Chipset Model:" m = false) :
    check_gpu_availability env = Except.ok
      { has_gpu := true, gpu_count := 2
        gpu_info := [pyStrip a, pyStrip b]
        method := some "system_profiler" } := by
  have hmem : a ∈ pySplitLines out := by
    rw [hsplit]
    exact List.mem_append.mpr (Or.inr (List.mem_cons_self _ _))
  have hguard : pyIn "Chipset Model:" out = true := pyIn_out_of_line hmem ha
  have hfil : (pySplitLines out).filter (fun l => pyIn "Chipset Model:" l) = [a, b] := by
    rw [hsplit]
    exact filter_pair _ pre mid post a b ha hb hpre hmid hpost
  have hlines : profilerGpuLines out = [pyStrip a, pyStrip b] := by
    rw [profilerGpuLines, hfil]
    simp
  have hnv2 : check_gpu_availability env = checkTorch env := by
    rcases hnv with h | h <;> simp [check_gpu_availability, check_output, h]
  have htorch : checkTorch env = checkSystem env := by
    rcases ht with h2 | ⟨t, h2, h3⟩
    · simp [checkTorch, h2]
    · simp [checkTorch, h2, h3]
  rw [hnv2, htorch]
  simp [checkSystem, hplat, hsp, check_output, hguard, hlines]

/-- Witness for C7 at a concrete system_profiler output with two chipset
lines. -/
theorem system_profiler_two_lines_witness :
    pyLower "Darwin" = "darwin" ∧
    pySplitLines "Graphics:\n  Chipset Model: Intel Iris\n  Chipset Model: AMD Radeon\nDone" =
      ["Graphics:"] ++ "  Chipset Model: Intel Iris" ::
        ([] ++ "  Chipset Model: AMD Radeon" :: ["Done"]) ∧
    pyIn "Chipset Model:" "  Chipset Model: Intel Iris" = true ∧
    pyIn "Chipset Model:" "  Chipset Model: AMD Radeon" = true ∧
    check_gpu_availability
      { nvidiaSmi := CmdResult.notFound, torch := none
        platformSystem := "Darwin"
        systemProfiler := CmdResult.ok "Graphics:\n  Chipset Model: Intel Iris\n  Chipset Model: AMD Radeon\nDone"
        lspci := CmdResult.notFound } = Except.ok
      { has_gpu := true, gpu_count := 2
        gpu_info := [pyStrip "  Chipset Model: Intel Iris", pyStrip "  Chipset Model: AMD Radeon"]
        method := some "system_profiler" } := by
  refine ⟨by decide, by decide, by decide, by decide, ?_⟩
  exact system_profiler_two_lines
    { nvidiaSmi := CmdResult.notFound, torch := none
      platformSystem := "Darwin"
      systemProfiler := CmdResult.ok "Graphics:\n  Chipset Model: Intel Iris\n  Chipset Model: AMD Radeon\nDone"
      lspci := CmdResult.notFound }
    "Graphics:\n  Chipset Model: Intel Iris\n  Chipset Model: AMD Radeon\nDone"
    ["Graphics:"] [] ["Done"] "  Chipset Model: Intel Iris" "  Chipset Model: AMD Radeon"
    (Or.inl rfl) (Or.inl rfl) (by decide) rfl (by decide) (by decide) (by decide)
    (by decide) (by decide) (by decide)

/-- C9: on darwin, when strategies 1 and 2 are unavailable and the
display-information command succeeds but its output contains no line with
"Chipset Model:", the probe returns the zero-value result with method none
rather than an empty "system_profiler" result. -/
theorem darwin_empty_guard (env : Env) (out : String)
    (hnv : env.nvidiaSmi = CmdResult.notFound ∨
      env.nvidiaSmi = CmdResult.nonZeroExit)
    (ht : env.torch = none ∨
      ∃ t, env.torch = some t ∧ t.cuda_available = false)
    (hplat : pyLower env.platformSystem = "darwin")
    (hsp : env.systemProfiler = CmdResult.ok out)
    (hall : ∀ l ∈ pySplitLines out, pyIn "Chipset Model:" l = false) :
    check_gpu_availability env = Except.ok
      { has_gpu := false, gpu_count := 0, gpu_info := [], method := none } := by
  have hguard : pyIn "Chipset Model:" out = false := by
    by_contra hc
    rw [Bool.not_eq_false] at hc
    obtain ⟨l, hl, hli⟩ := line_of_pyIn_out (by decide) hc
    rw [hall l hl] at hli
    simp at hli
  have hnv2 : check_gpu_availability env = checkTorch env := by
    rcases hnv with h | h <;> simp [check_gpu_availability, check_output, h]
  have htorch : checkTorch env = checkSystem env := by
    rcases ht with h2 | ⟨t, h2, h3⟩
    · simp [checkTorch, h2]
    · simp [checkTorch, h2, h3]
  rw [hnv2, htorch]
  simp [checkSystem, hplat, hsp, check_output, hguard, defaultResult]

/-- Witness for C9 at a concrete system_profiler output with no chipset
line. -/
theorem darwin_empty_guard_witness :
    pyLower "Darwin" = "darwin" ∧
    (∀ l ∈ pySplitLines "Graphics:\n  nothing here", pyIn "Chipset Model:" l = false) ∧
    check_gpu_availability
      { nvidiaSmi := CmdResult.nonZeroExit, torch := none
        platformSystem := "Darwin"
        systemProfiler := CmdResult.ok "Graphics:\n  nothing here"
        lspci := CmdResult.notFound } = Except.ok
      { has_gpu := false, gpu_count := 0, gpu_info := [], method := none } := by
  refine ⟨by decide, by decide, ?_⟩
  exact darwin_empty_guard
    { nvidiaSmi := CmdResult.nonZeroExit, torch := none
      platformSystem := "Darwin"
      systemProfiler := CmdResult.ok "Graphics:\n  nothing here"
      lspci := CmdResult.notFound }
    "Graphics:\n  nothing here"
    (Or.inr rfl) (Or.inl rfl) (by decide) rfl (by decide)

/-- C3 counterexample: with the ML library importable but reporting no
accelerator (and the NVIDIA command missing), the probe does NOT stop at
strategy 2: it falls through to strategy 3 and here returns an "lspci"
result with has_gpu true, contradicting the claim that a structurally
successful strategy-2 call (library importable, no accelerator) stops the
chain with has_gpu false. -/
theorem strategy2_fallthrough_cex :
    check_gpu_availability
      { nvidiaSmi := CmdResult.notFound
        torch := some { cuda_available := false, devices := [] }
        platformSystem := "Linux"
        systemProfiler := CmdResult.notFound
        lspci := CmdResult.ok "00:02.0 VGA compatible controller: Intel HD" } =
      Except.ok
        { has_gpu := true, gpu_count := 1
          gpu_info := ["00:02.0 VGA compatible controller: Intel HD"]
          method := some "lspci" } ∧
    (some "lspci" : Option String) ≠ some "pytorch" := by
  exact ⟨rfl, by decide⟩

/-- C3 amended: strategy 1 stops the chain even when structurally
successful with zero matching lines, returning has_gpu false at that tier;
but for strategy 2, when the ML library is importable and reports no
available accelerator, the chain falls through to strategy 3 (it does not
stop at strategy 2). -/
theorem strategy_stop_amended (env1 env2 : Env) (out : String)
    (t : TorchState)
    (h1 : env1.nvidiaSmi = CmdResult.ok out)
    (h2 : nvidiaGpuLines out = [])
    (h3 : env2.nvidiaSmi = CmdResult.notFound ∨
      env2.nvidiaSmi = CmdResult.nonZeroExit)
    (h4 : env2.torch = some t)
    (h5 : t.cuda_available = false) :
    check_gpu_availability env1 = Except.ok
      { has_gpu := false, gpu_count := 0, gpu_info := []
        method := some "nvidia-smi" } ∧
    check_gpu_availability env2 = checkSystem env2 := by
  constructor
  · simp [check_gpu_availability, check_output, h1, h2]
  · rcases h3 with h | h <;>
      simp [check_gpu_availability, check_output, h, checkTorch, h4, h5]

/-- Witness for the amended C3: one environment where nvidia-smi succeeds
with no GPU lines, one where the library is importable without an
accelerator and strategy 3 then runs. -/
theorem strategy_stop_amended_witness :
    nvidiaGpuLines "no devices found" = [] ∧
    TorchState.cuda_available { cuda_available := false, devices := [] } = false ∧
    check_gpu_availability
      { nvidiaSmi := CmdResult.ok "no devices found", torch := none
        platformSystem := "Linux", systemProfiler := CmdResult.notFound
        lspci := CmdResult.notFound } = Except.ok
      { has_gpu := false, gpu_count := 0, gpu_info := []
        method := some "nvidia-smi" } ∧
    check_gpu_availability
      { nvidiaSmi := CmdResult.notFound
        torch := some { cuda_available := false, devices := [] }
        platformSystem := "Linux"
        systemProfiler := CmdResult.notFound
        lspci := CmdResult.ok "00:02.0 VGA compatible controller: Intel HD" } =
      checkSystem
      { nvidiaSmi := CmdResult.notFound
        torch := some { cuda_available := false, devices := [] }
        platformSystem := "Linux"
        systemProfiler := CmdResult.notFound
        lspci := CmdResult.ok "00:02.0 VGA compatible controller: Intel HD" } := by
  refine ⟨by decide, rfl, ?_, ?_⟩
  · exact (strategy_stop_amended
      { nvidiaSmi := CmdResult.ok "no devices found", torch := none
        platformSystem := "Linux", systemProfiler := CmdResult.notFound
        lspci := CmdResult.notFound }
      { nvidiaSmi := CmdResult.notFound
        torch := some { cuda_available := false, devices := [] }
        platformSystem := "Linux"
        systemProfiler := CmdResult.notFound
        lspci := CmdResult.ok "00:02.0 VGA compatible controller: Intel HD" }
      "no devices found" { cuda_available := false, devices := [] }
      rfl (by decide) (Or.inl rfl) rfl rfl).1
  · exact (strategy_stop_amended
      { nvidiaSmi := CmdResult.ok "no devices found", torch := none
        platformSystem := "Linux", systemProfiler := CmdResult.notFound
        lspci := CmdResult.notFound }
      { nvidiaSmi := CmdResult.notFound
        torch := some { cuda_available := false, devices := [] }
        platformSystem := "Linux"
        systemProfiler := CmdResult.notFound
        lspci := CmdResult.ok "00:02.0 VGA compatible controller: Intel HD" }
      "no devices found" { cuda_available := false, devices := [] }
      rfl (by decide) (Or.inl rfl) rfl rfl).2

